import Mathlib

/-!
PCReconstruct: the point-cloud store and the reconstruction dialog.

A shallow embedding of `Cloud.cpp` (`clear`, `fromPCL`, `toPCL`, `addPoint`,
`buildSpatialIndex`, `approxNorm`, `approxCloudNorms`, `pointKNN`) and of
`dialogs/ReconstructDialog.cpp` (`getFields`).

Conventions of the embedding.

* `float` is an arbitrary type `α` carrying the operations the code uses
  (`0`, `1`, `+`, `-`, `/`, conversion from `size_t`).  No law of arithmetic is
  assumed, so every statement holds for IEEE floats as well as for `ℚ`.
* `std::vector` is `List`; `push_back` appends at the end.
* A `for (size_t i = 0; i < n; ++i)` loop is `forLoop n body`.
* `assert(e)` that fails aborts the call: the operation returns `none`.
* The mutex, the logger signals and `QCoreApplication::processEvents()` do not
  touch the members modelled here and are left out.
-/

namespace PCReconstruct

/-! ## Data model -/

/-- Eigen `Vector3f`: three float components, `v[0]`, `v[1]`, `v[2]`. -/
structure Vector3f (α : Type) where
  x : α
  y : α
  z : α
deriving DecidableEq, Repr

/-- The `pcl::PointXYZ` of the external container: the coordinates `x`, `y`, `z`. -/
structure PointXYZ (α : Type) where
  x : α
  y : α
  z : α
deriving DecidableEq, Repr

/-- The `CoverTreePoint<Vector3f>` built by `cp(v, id)`: a vector and the id
it was given. `CoverTreePoint.h` is not among the sources; only the
constructor and `getVec` are used by `Cloud.cpp`. -/
structure CoverTreePoint (α : Type) where
  vec : Vector3f α
  id : Nat
deriving DecidableEq, Repr

/-- The accessor `getVec()` of a cover-tree point. -/
def CoverTreePoint.getVec {α : Type} (p : CoverTreePoint α) : Vector3f α := p.vec

/-- The `CoverTree<CoverTreePoint<Vector3f>>` owned through `m_CT`.
`Cover_Tree.h` is not among the sources: the tree is represented by the
sequence of points handed to `insert`, in call order. -/
structure CoverTree (α : Type) where
  inserted : List (CoverTreePoint α)
deriving DecidableEq, Repr

/-- The constructor `new CoverTree<...>()`: nothing inserted yet. -/
def CoverTree.new {α : Type} : CoverTree α := ⟨[]⟩

/-- The call `m_CT->insert(cp)`: records the inserted point. -/
def CoverTree.insert {α : Type} (t : CoverTree α) (cp : CoverTreePoint α) : CoverTree α :=
  ⟨t.inserted ++ [cp]⟩

/-- The members of `Cloud` that the modelled operations read or write:
`m_cloud`, `m_norms` and the owning pointer `m_CT` (`none` is `nullptr`). -/
structure Cloud (α : Type) where
  m_cloud : List (Vector3f α)
  m_norms : List (Vector3f α)
  m_CT : Option (CoverTree α)
deriving DecidableEq, Repr

/-- Functions that `Cloud.cpp` calls and whose bodies are not among the
sources, taken as parameters: the k-nearest-neighbour query of the cover tree,
`cloud_normal` (declared in `utils/cloud_normal.h`), and the content of the
`i`-th element of a vector of default-constructed `Vector3f`, which Eigen
leaves unspecified. -/
structure Externals (α : Type) where
  kNearestNeighbors : CoverTree α → CoverTreePoint α → Int → List (CoverTreePoint α)
  cloud_normal : Vector3f α → List (Vector3f α) → Int → Vector3f α
  uninitialized : Nat → Vector3f α

/-! ## Loops -/

/-- Iterations `i, i+1, ...` of a counted loop, `fuel` of them. -/
def forLoopFrom {σ : Type} (body : Nat → σ → σ) : Nat → Nat → σ → σ
  | 0, _, s => s
  | fuel + 1, i, s => forLoopFrom body fuel (i + 1) (body i s)

/-- The loop `for (size_t i = 0; i < n; ++i) body(i)` acting on a state. -/
def forLoop {σ : Type} (n : Nat) (body : Nat → σ → σ) (s : σ) : σ :=
  forLoopFrom body n 0 s

/-! ## Cloud.cpp -/

section CloudOps

variable {α : Type}

/-- The constructor `Cloud::Cloud`: empty arrays, `m_CT(nullptr)`. -/
def Cloud.empty : Cloud α := ⟨[], [], none⟩

/-- The member `Cloud::pointCount`. -/
def Cloud.pointCount (c : Cloud α) : Nat := c.m_cloud.length

/-- The method `Cloud::clear`: empties both arrays and deletes the index. -/
def Cloud.clear (_c : Cloud α) : Cloud α :=
  { m_cloud := [], m_norms := [], m_CT := none }

/-- First loop of `Cloud::fromPCL`: accumulates the coordinate sums of
`cloud->points[0 .. npoints-1]` into `(centx, centy, centz)`. -/
def fromPCL_sums [Add α] (points : List (PointXYZ α)) (i : Nat) (acc : α × α × α) : α × α × α :=
  match points[i]? with
  | some p => (acc.1 + p.x, acc.2.1 + p.y, acc.2.2 + p.z)
  | none => acc

/-- Second loop of `Cloud::fromPCL`: pushes the recentred point and the
default normal. -/
def fromPCL_push [Sub α] (points : List (PointXYZ α)) (cent : α × α × α) (n : Vector3f α)
    (i : Nat) (c : Cloud α) : Cloud α :=
  match points[i]? with
  | some p =>
    let v : Vector3f α := ⟨p.x - cent.1, p.y - cent.2.1, p.z - cent.2.2⟩
    { c with m_cloud := c.m_cloud ++ [v], m_norms := c.m_norms ++ [n] }
  | none => c

/-- The method `Cloud::fromPCL`. -/
def Cloud.fromPCL [Zero α] [One α] [Add α] [Sub α] [Div α] [NatCast α]
    (points : List (PointXYZ α)) (c : Cloud α) : Cloud α :=
  let c := c.clear
  let n : Vector3f α := ⟨0, 0, 1⟩
  let npoints := points.length / 25
  let sums := forLoop npoints (fromPCL_sums points) ((0 : α), (0 : α), (0 : α))
  let centx := sums.1 / (npoints : α)
  let centy := sums.2.1 / (npoints : α)
  let centz := sums.2.2 / (npoints : α)
  forLoop npoints (fromPCL_push points (centx, centy, centz) n) c

/-- Loop body of `Cloud::toPCL`: pushes the coordinates of `m_cloud[i]`. -/
def toPCL_push (c : Cloud α) (i : Nat) (out : List (PointXYZ α)) : List (PointXYZ α) :=
  match c.m_cloud[i]? with
  | some v => out ++ [⟨v.x, v.y, v.z⟩]
  | none => out

/-- The method `Cloud::toPCL`: returns the cloud (not written) and the output
container after the call. -/
def Cloud.toPCL (c : Cloud α) (cloud : List (PointXYZ α)) : Cloud α × List (PointXYZ α) :=
  (c, forLoop c.m_cloud.length (toPCL_push c) cloud)

/-- The method `Cloud::addPoint`. -/
def Cloud.addPoint (v n : Vector3f α) (_threadSafe : Bool) (c : Cloud α) : Cloud α :=
  let m_cloud := c.m_cloud ++ [v]
  let m_norms := c.m_norms ++ [n]
  match c.m_CT with
  | some ct =>
    let cp : CoverTreePoint α := ⟨v, m_cloud.length⟩
    { m_cloud := m_cloud, m_norms := m_norms, m_CT := some (ct.insert cp) }
  | none => { m_cloud := m_cloud, m_norms := m_norms, m_CT := none }

/-- Loop body of `Cloud::buildSpatialIndex`: inserts `(m_cloud[i], i)`. -/
def buildSpatialIndex_insert (m_cloud : List (Vector3f α)) (i : Nat) (ct : CoverTree α) :
    CoverTree α :=
  match m_cloud[i]? with
  | some p =>
    let v : Vector3f α := ⟨p.x, p.y, p.z⟩
    ct.insert ⟨v, i⟩
  | none => ct

/-- The method `Cloud::buildSpatialIndex`: discards any index and inserts the
current points into a new one. -/
def Cloud.buildSpatialIndex (c : Cloud α) : Cloud α :=
  let npoints := c.m_cloud.length
  { c with m_CT := some (forLoop npoints (buildSpatialIndex_insert c.m_cloud) CoverTree.new) }

/-- The iterator loop `for (it = neighs.begin(); it != neighs.end(); ++it)
vneighs.push_back(it->getVec())`, started on the given `vneighs`. -/
def pushNeighVects (neighs : List (CoverTreePoint α)) (vneighs : List (Vector3f α)) :
    List (Vector3f α) :=
  neighs.foldl (fun acc it => acc ++ [it.getVec]) vneighs

/-- The vector `vneighs` that `Cloud::approxNorm` passes to `cloud_normal`:
constructed as `vector<Vector3f> vneighs(neighs.size())`, then filled by
`push_back`. -/
def approxNorm_vneighs (ext : Externals α) (ct : CoverTree α) (p : Vector3f α) (kNN : Int) :
    List (Vector3f α) :=
  let cp : CoverTreePoint α := ⟨p, 0⟩
  let neighs := ext.kNearestNeighbors ct cp kNN
  let vneighs := (List.range neighs.length).map ext.uninitialized
  pushNeighVects neighs vneighs

/-- The method `Cloud::approxNorm`; `none` when `assert(m_CT != nullptr)` fails. -/
def Cloud.approxNorm (ext : Externals α) (c : Cloud α) (p : Vector3f α) (iters kNN : Int) :
    Option (Vector3f α) :=
  match c.m_CT with
  | none => none
  | some ct => some (ext.cloud_normal p (approxNorm_vneighs ext ct p kNN) iters)

/-- The vector `vneighs` that one iteration of `Cloud::approxCloudNorms`
passes to `cloud_normal`: emptied by `resize(0)`, then filled by `push_back`. -/
def approxCloudNorms_vneighs (ext : Externals α) (ct : CoverTree α) (p : Vector3f α)
    (kNN : Int) : List (Vector3f α) :=
  let cp : CoverTreePoint α := ⟨p, 0⟩
  let neighs := ext.kNearestNeighbors ct cp kNN
  pushNeighVects neighs []

/-- Loop body of `Cloud::approxCloudNorms`: `m_norms[i] = cloud_normal(...)`;
`List.set` writes position `i` and keeps the length. -/
def approxCloudNorms_body (ext : Externals α) (ct : CoverTree α) (iters kNN : Int)
    (i : Nat) (c : Cloud α) : Cloud α :=
  match c.m_cloud[i]? with
  | some p =>
    { c with m_norms :=
        c.m_norms.set i (ext.cloud_normal p (approxCloudNorms_vneighs ext ct p kNN) iters) }
  | none => c

/-- The method `Cloud::approxCloudNorms`; `none` when the assertion fails. -/
def Cloud.approxCloudNorms (ext : Externals α) (iters kNN : Int) (c : Cloud α) :
    Option (Cloud α) :=
  match c.m_CT with
  | none => none
  | some ct => some (forLoop c.m_cloud.length (approxCloudNorms_body ext ct iters kNN) c)

/-- The method `Cloud::pointKNN`: the value assigned to `neighs`; `none` when
`assert(m_CT != nullptr)` fails. -/
def Cloud.pointKNN (ext : Externals α) (c : Cloud α) (p : Vector3f α) (k : Int) :
    Option (List (CoverTreePoint α)) :=
  match c.m_CT with
  | none => none
  | some ct => some (ext.kNearestNeighbors ct ⟨p, 0⟩ k)

end CloudOps

/-! ## dialogs/ReconstructDialog.cpp -/

/-- The enum `QValidator::State`. -/
inductive QValidatorState where
  | Invalid
  | Intermediate
  | Acceptable
deriving DecidableEq, Repr

/-- The enum `SparseApprox` of `Cloud.h`. -/
inductive SparseApprox where
  | MatchingPursuit
  | OrthogonalPursuit
deriving DecidableEq, Repr

/-- The two Qt calls made by `getFields`, as parameters:
`validator->validate(str, pos)` and `str.toULongLong(&ok)`, the latter giving
the returned value together with the flag written to `ok`. -/
structure QtText where
  validate : String → QValidatorState
  toULongLong : String → Nat × Bool

/-- The widgets of `ReconstructDialog` read by `getFields`: the text of the
six line edits and the current index of `methodComboBox` (0 is
"Orthogonal Pursuit", 1 is "Matching Pursuit", the order of `addItem`). -/
structure ReconstructDialog where
  nItersLineEdit : String
  kNNLineEdit : String
  nFreqLineEdit : String
  nAtmLineEdit : String
  lAtmLineEdit : String
  maxNewLineEdit : String
  methodComboBox : Nat
deriving DecidableEq, Repr

/-- The seven reference parameters of `getFields`: `int& kSVDIters`, five
`size_t&` and `SparseApprox& method`. -/
structure Fields where
  kSVDIters : Int
  kNN : Nat
  nfreq : Nat
  natm : Nat
  latm : Nat
  maxNewPoints : Nat
  method : SparseApprox
deriving DecidableEq, Repr

/-- What a call of `getFields` leaves behind: the returned code, the
reference parameters and the dialog (an offending line edit is cleared). -/
structure GetFieldsResult where
  code : Int
  out : Fields
  dialog : ReconstructDialog
deriving DecidableEq, Repr

/-- Conversion of a `qulonglong` to `int` (32 bit, two's complement). -/
def toInt (v : Nat) : Int :=
  (((v : Int) + 2147483648) % 4294967296) - 2147483648

/-- Conversion of a `qulonglong` to `size_t` (64 bit). -/
def toSizeT (v : Nat) : Nat := v % 18446744073709551616

/-- The block of `getFields` for a `size_t` field without extra condition
(`kNN`, `nfreq`, `natm`, `maxNewPoints`): the new `ok` and the value the
field holds afterwards. -/
def readSizeT (qt : QtText) (str : String) (old : Nat) : Bool × Nat :=
  if qt.validate str ≠ QValidatorState.Acceptable then (false, old)
  else ((qt.toULongLong str).2, toSizeT (qt.toULongLong str).1)

/-- The block of `getFields` for `kSVDIters`. -/
def readIters (qt : QtText) (str : String) (old : Int) : Bool × Int :=
  if qt.validate str ≠ QValidatorState.Acceptable then (false, old)
  else ((qt.toULongLong str).2, toInt (qt.toULongLong str).1)

/-- The block of `getFields` for `latm`, with `if(latm > natm) ok = false;`. -/
def readLatm (qt : QtText) (str : String) (old natm : Nat) : Bool × Nat :=
  if qt.validate str ≠ QValidatorState.Acceptable then (false, old)
  else
    let latm := toSizeT (qt.toULongLong str).1
    let ok := (qt.toULongLong str).2
    (if latm > natm then false else ok, latm)

/-- The end of `getFields`: `int index = 0; methodComboBox->activated(index);
switch(index)`. The call emits the signal `activated(int)`, which takes
`index` by value. -/
def readMethod (_methodComboBox : Nat) (old : SparseApprox) : SparseApprox :=
  let index : Int := 0
  if index = 0 then SparseApprox.OrthogonalPursuit
  else if index = 1 then SparseApprox.MatchingPursuit
  else old

/-- The method `ReconstructDialog::getFields`. -/
def getFields (qt : QtText) (d : ReconstructDialog) (o : Fields) : GetFieldsResult :=
  let r1 := readIters qt d.nItersLineEdit o.kSVDIters
  let o := { o with kSVDIters := r1.2 }
  if !r1.1 then ⟨-1, o, { d with nItersLineEdit := "" }⟩ else
  let r2 := readSizeT qt d.kNNLineEdit o.kNN
  let o := { o with kNN := r2.2 }
  if !r2.1 then ⟨-2, o, { d with kNNLineEdit := "" }⟩ else
  let r3 := readSizeT qt d.nFreqLineEdit o.nfreq
  let o := { o with nfreq := r3.2 }
  if !r3.1 then ⟨-3, o, { d with nFreqLineEdit := "" }⟩ else
  let r4 := readSizeT qt d.nAtmLineEdit o.natm
  let o := { o with natm := r4.2 }
  if !r4.1 then ⟨-4, o, { d with nAtmLineEdit := "" }⟩ else
  let r5 := readLatm qt d.lAtmLineEdit o.latm o.natm
  let o := { o with latm := r5.2 }
  if !r5.1 then ⟨-5, o, { d with lAtmLineEdit := "" }⟩ else
  let r6 := readSizeT qt d.maxNewLineEdit o.maxNewPoints
  let o := { o with maxNewPoints := r6.2 }
  if !r6.1 then ⟨-6, o, { d with maxNewLineEdit := "" }⟩ else
  ⟨0, { o with method := readMethod d.methodComboBox o.method }, d⟩

/-! ### The Qt integer validator and conversion on decimal numerals -/

/-- Value of a non-empty run of ASCII digits, read left to right. -/
def parseDigitsFrom : List Char → Nat → Option Nat
  | [], acc => some acc
  | c :: cs, acc => if c.isDigit then parseDigitsFrom cs (acc * 10 + (c.toNat - 48)) else none

/-- An unsigned decimal numeral: at least one digit, nothing else. -/
def parseDigits (cs : List Char) : Option Nat :=
  match cs with
  | [] => none
  | _ :: _ => parseDigitsFrom cs 0

/-- A decimal integer with an optional sign. -/
def parseInteger (cs : List Char) : Option Int :=
  match cs with
  | [] => none
  | c :: rest =>
    if c = '+' then (parseDigits rest).map Int.ofNat
    else if c = '-' then (parseDigits rest).map (fun v => - Int.ofNat v)
    else (parseDigits cs).map Int.ofNat

/-- The call `QIntValidator(bottom, top).validate(str, pos)` after the Qt
documentation: `Acceptable` exactly for an integer within `[bottom, top]`.
The other two states are told apart only roughly; `getFields` compares
with `Acceptable` alone. -/
def QIntValidator_validate (bottom top : Int) (str : String) : QValidatorState :=
  match parseInteger str.data with
  | some v =>
    if bottom ≤ v ∧ v ≤ top then QValidatorState.Acceptable
    else QValidatorState.Intermediate
  | none =>
    if str.data = [] ∨ str.data = ['+'] ∨ str.data = ['-'] then QValidatorState.Intermediate
    else QValidatorState.Invalid

/-- The call `QString::toULongLong(&ok)` in base 10 after the Qt
documentation: the value and `ok = true` for an unsigned numeral that fits
64 bits, `0` and `ok = false` otherwise. -/
def QString_toULongLong (str : String) : Nat × Bool :=
  let unsignedPart := match str.data with
    | [] => none
    | c :: rest => if c = '+' then parseDigits rest else parseDigits str.data
  match unsignedPart with
  | some v => if v < 18446744073709551616 then (v, true) else (0, false)
  | none => (0, false)

/-- The dialog's Qt environment: `validator = new QIntValidator(1,
int_infinity, this)`; `int_infinity` is declared in `constants.h`, which is
not among the sources, and is a parameter. -/
def dialogQt (int_infinity : Int) : QtText :=
  { validate := QIntValidator_validate 1 int_infinity
    toULongLong := QString_toULongLong }

/-! ## Vocabulary of the statements -/

section Vocabulary

variable {α : Type}

/-- Component-wise mean of a list of points, each sum accumulated from `0`
left to right and divided by the number of points. -/
def centroid [Zero α] [Add α] [Div α] [NatCast α] (ps : List (PointXYZ α)) : Vector3f α :=
  ⟨ps.foldl (fun a p => a + p.x) 0 / ((ps.length : Nat) : α),
   ps.foldl (fun a p => a + p.y) 0 / ((ps.length : Nat) : α),
   ps.foldl (fun a p => a + p.z) 0 / ((ps.length : Nat) : α)⟩

/-- A point minus an offset, component by component. -/
def recentre [Sub α] (offset : Vector3f α) (p : PointXYZ α) : Vector3f α :=
  ⟨p.x - offset.x, p.y - offset.y, p.z - offset.z⟩

/-- The coordinates of a stored point as an entry of the external container. -/
def coordinates (v : Vector3f α) : PointXYZ α := ⟨v.x, v.y, v.z⟩

/-- The pairs `(m_cloud[i], i)` for `i = 0 .. pointCount-1`, in index order. -/
def indexEntries (m_cloud : List (Vector3f α)) : List (CoverTreePoint α) :=
  m_cloud.enum.map (fun iv => ⟨iv.2, iv.1⟩)

/-- The operations that change a `Cloud`. -/
inductive Op (α : Type) where
  | clear
  | fromPCL (points : List (PointXYZ α))
  | addPoint (v n : Vector3f α) (threadSafe : Bool)
  | buildSpatialIndex
  | approxCloudNorms (iters kNN : Int)

/-- One operation applied to a cloud; `none` when its assertion fails. -/
def Op.apply [Zero α] [One α] [Add α] [Sub α] [Div α] [NatCast α]
    (ext : Externals α) (op : Op α) (c : Cloud α) : Option (Cloud α) :=
  match op with
  | Op.clear => some c.clear
  | Op.fromPCL points => some (c.fromPCL points)
  | Op.addPoint v n threadSafe => some (c.addPoint v n threadSafe)
  | Op.buildSpatialIndex => some c.buildSpatialIndex
  | Op.approxCloudNorms iters kNN => c.approxCloudNorms ext iters kNN

/-- A sequence of operations applied in order, first one first. -/
def run [Zero α] [One α] [Add α] [Sub α] [Div α] [NatCast α]
    (ext : Externals α) : List (Op α) → Cloud α → Option (Cloud α)
  | [], c => some c
  | op :: ops, c =>
    match op.apply ext c with
    | none => none
    | some c1 => run ext ops c1

end Vocabulary

/-- A field is offending when its text fails the validator or its conversion. -/
def fieldFails (qt : QtText) (str : String) : Bool :=
  decide (qt.validate str ≠ QValidatorState.Acceptable) || !(qt.toULongLong str).2

/-- The six fields in the order `kSVDIters, kNN, nfreq, natm, latm,
maxNewPoints`, each marked offending or not; `latm` is offending also when
its value exceeds that of `natm`. -/
def offendingFields (qt : QtText) (d : ReconstructDialog) : List Bool :=
  [ fieldFails qt d.nItersLineEdit,
    fieldFails qt d.kNNLineEdit,
    fieldFails qt d.nFreqLineEdit,
    fieldFails qt d.nAtmLineEdit,
    fieldFails qt d.lAtmLineEdit ||
      decide (toSizeT (qt.toULongLong d.lAtmLineEdit).1 > toSizeT (qt.toULongLong d.nAtmLineEdit).1),
    fieldFails qt d.maxNewLineEdit ]

/-- The code `-k` for the first offending position `k`, the head of the list
being position `start`; `0` when no position is offending. -/
def codeOfFirstOffending : List Bool → Int → Int
  | [], _ => 0
  | b :: bs, start => if b then -start else codeOfFirstOffending bs (start + 1)

/-- The `size_t` outputs and the method that come after position `k`
(1 is `kSVDIters`, ..., 6 is `maxNewPoints`). -/
def outputsAfter (k : Nat) (f : Fields) : List Nat × SparseApprox :=
  ([f.kNN, f.nfreq, f.natm, f.latm, f.maxNewPoints].drop (k - 1), f.method)

/-! ## Concrete inputs -/

/-- One hundred points: `(0, 2, 0)`, `(1, 2, 0)`, `(2, 2, 0)`, `(3, 2, 0)` and
ninety-six times `(8, 8, 8)`. -/
def hundredPoints : List (PointXYZ ℚ) :=
  [⟨0, 2, 0⟩, ⟨1, 2, 0⟩, ⟨2, 2, 0⟩, ⟨3, 2, 0⟩] ++ List.replicate 96 ⟨8, 8, 8⟩

/-- One hundred copies of the point `(1, 2, 3)`. -/
def hundredEqualPoints : List (PointXYZ ℚ) :=
  List.replicate 100 ⟨1, 2, 3⟩

/-- Stand-ins for the external functions: the query returns the first `k`
inserted points, the normal is always `(0, 0, 1)`. -/
def sampleExternals : Externals ℚ :=
  { kNearestNeighbors := fun ct _ k => ct.inserted.take k.toNat
    cloud_normal := fun _ _ _ => ⟨0, 0, 1⟩
    uninitialized := fun _ => ⟨0, 0, 0⟩ }

/-- Fifty points `(i, 0, 1)`, `i = 0 .. 49`. -/
def fiftyPoints : List (PointXYZ ℚ) :=
  (List.range 50).map (fun i => ⟨(i : ℚ), 0, 1⟩)

/-- A run that uses every operation. -/
def sampleOps : List (Op ℚ) :=
  [ Op.addPoint ⟨5, 5, 5⟩ ⟨1, 0, 0⟩ false,
    Op.fromPCL fiftyPoints,
    Op.buildSpatialIndex,
    Op.addPoint ⟨7, 8, 9⟩ ⟨0, 1, 0⟩ true,
    Op.approxCloudNorms 25 2,
    Op.clear,
    Op.addPoint ⟨1, 1, 1⟩ ⟨0, 0, 1⟩ false,
    Op.buildSpatialIndex,
    Op.approxCloudNorms 10 1 ]

/-- The value of `std::numeric_limits<int>::max()`. -/
def intMax : Int := 2147483647

/-- The dialog as constructed (its default texts), with "Matching Pursuit"
selected in the combo box. -/
def defaultDialog : ReconstructDialog :=
  ⟨"20", "50", "4", "10", "4", "25000", 1⟩

/-- Output parameters as a caller may hold them before the call. -/
def staleFields : Fields :=
  ⟨7, 7, 7, 7, 7, 7, SparseApprox.MatchingPursuit⟩

/-! ## Lemmas on the loops -/

section LoopLemmas

theorem forLoopFrom_succ {σ : Type} (body : Nat → σ → σ) (fuel i : Nat) (s : σ) :
    forLoopFrom body (fuel + 1) i s = body (i + fuel) (forLoopFrom body fuel i s) := by
  induction fuel generalizing i s with
  | zero => simp [forLoopFrom]
  | succ k ih =>
    have h := ih (i + 1) (body i s)
    have e : i + 1 + k = i + (k + 1) := by omega
    rw [e] at h
    exact h

theorem forLoop_zero {σ : Type} (body : Nat → σ → σ) (s : σ) : forLoop 0 body s = s := rfl

theorem forLoop_succ {σ : Type} (n : Nat) (body : Nat → σ → σ) (s : σ) :
    forLoop (n + 1) body s = body n (forLoop n body s) := by
  have h := forLoopFrom_succ body n 0 s
  simpa [forLoop] using h

end LoopLemmas

section CloudLemmas

variable {α : Type}

theorem fromPCL_sums_loop [Zero α] [Add α] (points : List (PointXYZ α)) (k : Nat) :
    forLoop k (fromPCL_sums points) ((0 : α), (0 : α), (0 : α))
      = ((points.take k).foldl (fun a p => a + p.x) 0,
         (points.take k).foldl (fun a p => a + p.y) 0,
         (points.take k).foldl (fun a p => a + p.z) 0) := by
  induction k with
  | zero => simp [forLoop_zero]
  | succ k ih =>
    rw [forLoop_succ, ih, List.take_succ]
    cases h : points[k]? <;> simp [fromPCL_sums, h, List.foldl_append]

theorem fromPCL_push_loop [Sub α] (points : List (PointXYZ α)) (cent : α × α × α)
    (n : Vector3f α) (k : Nat) (c : Cloud α) :
    forLoop k (fromPCL_push points cent n) c
      = { m_cloud := c.m_cloud ++ (points.take k).map
            (fun p => ⟨p.x - cent.1, p.y - cent.2.1, p.z - cent.2.2⟩)
          m_norms := c.m_norms ++ (points.take k).map (fun _ => n)
          m_CT := c.m_CT } := by
  induction k with
  | zero => simp [forLoop_zero]
  | succ k ih =>
    rw [forLoop_succ, ih, List.take_succ]
    cases h : points[k]? <;> simp [fromPCL_push, h]

theorem toPCL_push_loop (c : Cloud α) (k : Nat) (out : List (PointXYZ α)) :
    forLoop k (toPCL_push c) out
      = out ++ (c.m_cloud.take k).map (fun v => (⟨v.x, v.y, v.z⟩ : PointXYZ α)) := by
  induction k with
  | zero => simp [forLoop_zero]
  | succ k ih =>
    rw [forLoop_succ, ih, List.take_succ]
    cases h : c.m_cloud[k]? <;> simp [toPCL_push, h]

theorem buildSpatialIndex_loop (m_cloud : List (Vector3f α)) (k : Nat) :
    forLoop k (buildSpatialIndex_insert m_cloud) CoverTree.new
      = ⟨((m_cloud.take k).enum).map (fun iv => (⟨iv.2, iv.1⟩ : CoverTreePoint α))⟩ := by
  induction k with
  | zero => simp [forLoop_zero, CoverTree.new]
  | succ k ih =>
    rw [forLoop_succ, ih, List.take_succ]
    cases h : m_cloud[k]? with
    | none => simp [buildSpatialIndex_insert, h]
    | some p =>
      have hk : k < m_cloud.length := by
        rcases List.getElem?_eq_some.1 h with ⟨hk, _⟩
        exact hk
      simp [buildSpatialIndex_insert, h, CoverTree.insert, List.enum_append, List.enumFrom_singleton,
        List.length_take, Nat.min_eq_left (Nat.le_of_lt hk)]

theorem approxCloudNorms_body_keeps (ext : Externals α) (ct : CoverTree α) (iters kNN : Int)
    (i : Nat) (c : Cloud α) :
    (approxCloudNorms_body ext ct iters kNN i c).m_cloud = c.m_cloud
    ∧ (approxCloudNorms_body ext ct iters kNN i c).m_norms.length = c.m_norms.length
    ∧ (approxCloudNorms_body ext ct iters kNN i c).m_CT = c.m_CT := by
  unfold approxCloudNorms_body
  cases h : c.m_cloud[i]? <;> simp

theorem approxCloudNorms_loop (ext : Externals α) (ct : CoverTree α) (iters kNN : Int)
    (k : Nat) (c : Cloud α) :
    (forLoop k (approxCloudNorms_body ext ct iters kNN) c).m_cloud = c.m_cloud
    ∧ (forLoop k (approxCloudNorms_body ext ct iters kNN) c).m_norms.length = c.m_norms.length
    ∧ (forLoop k (approxCloudNorms_body ext ct iters kNN) c).m_CT = c.m_CT := by
  induction k with
  | zero => simp [forLoop_zero]
  | succ k ih =>
    rw [forLoop_succ]
    obtain ⟨h1, h2, h3⟩ := ih
    obtain ⟨b1, b2, b3⟩ := approxCloudNorms_body_keeps ext ct iters kNN k
      (forLoop k (approxCloudNorms_body ext ct iters kNN) c)
    exact ⟨b1.trans h1, b2.trans h2, b3.trans h3⟩

theorem pushNeighVects_eq (neighs : List (CoverTreePoint α)) (vneighs : List (Vector3f α)) :
    pushNeighVects neighs vneighs = vneighs ++ neighs.map CoverTreePoint.getVec := by
  unfold pushNeighVects
  induction neighs generalizing vneighs with
  | nil => simp
  | cons a t ih => simp [ih]

end CloudLemmas

section CloudFacts

variable {α : Type}

theorem fromPCL_eq [Zero α] [One α] [Add α] [Sub α] [Div α] [NatCast α]
    (points : List (PointXYZ α)) (c : Cloud α) :
    c.fromPCL points
      = { m_cloud := (points.take (points.length / 25)).map
            (recentre (centroid (points.take (points.length / 25))))
          m_norms := List.replicate (points.length / 25) ⟨0, 0, 1⟩
          m_CT := none } := by
  have hk : points.length / 25 ≤ points.length := Nat.div_le_self _ _
  have hlen : (points.take (points.length / 25)).length = points.length / 25 := by
    simp [List.length_take, Nat.min_eq_left hk]
  have hrep : (points.take (points.length / 25)).map
      (fun _ => (⟨0, 0, 1⟩ : Vector3f α)) = List.replicate (points.length / 25) ⟨0, 0, 1⟩ := by
    rw [List.map_const', hlen]
  unfold Cloud.fromPCL
  simp only [fromPCL_sums_loop, fromPCL_push_loop, Cloud.clear, List.nil_append, hrep]
  simp only [centroid, hlen]
  rfl

theorem toPCL_eq (c : Cloud α) (cloud : List (PointXYZ α)) :
    c.toPCL cloud = (c, cloud ++ c.m_cloud.map coordinates) := by
  unfold Cloud.toPCL
  rw [toPCL_push_loop, List.take_length]
  rfl

theorem buildSpatialIndex_eq (c : Cloud α) :
    c.buildSpatialIndex
      = { m_cloud := c.m_cloud, m_norms := c.m_norms, m_CT := some ⟨indexEntries c.m_cloud⟩ } := by
  unfold Cloud.buildSpatialIndex
  simp only [buildSpatialIndex_loop, List.take_length]
  rfl

theorem approxCloudNorms_keeps (ext : Externals α) (iters kNN : Int) (c c1 : Cloud α)
    (h : c.approxCloudNorms ext iters kNN = some c1) :
    c1.m_cloud = c.m_cloud ∧ c1.m_norms.length = c.m_norms.length ∧ c1.m_CT = c.m_CT := by
  unfold Cloud.approxCloudNorms at h
  cases hct : c.m_CT with
  | none => simp [hct] at h
  | some ct =>
    simp only [hct, Option.some.injEq] at h
    subst h
    have := approxCloudNorms_loop ext ct iters kNN c.m_cloud.length c
    rw [hct] at this
    exact this

theorem apply_keeps_parallel [Zero α] [One α] [Add α] [Sub α] [Div α] [NatCast α]
    (ext : Externals α) (op : Op α) (c c1 : Cloud α)
    (hc : c.m_cloud.length = c.m_norms.length) (h : op.apply ext c = some c1) :
    c1.m_cloud.length = c1.m_norms.length := by
  cases op with
  | clear =>
    simp only [Op.apply, Option.some.injEq] at h
    subst h
    simp [Cloud.clear]
  | fromPCL points =>
    simp only [Op.apply, Option.some.injEq] at h
    subst h
    rw [fromPCL_eq]
    simp [List.length_take, Nat.min_eq_left (Nat.div_le_self _ _)]
  | addPoint v n threadSafe =>
    simp only [Op.apply, Option.some.injEq] at h
    subst h
    unfold Cloud.addPoint
    cases c.m_CT <;> simp [hc]
  | buildSpatialIndex =>
    simp only [Op.apply, Option.some.injEq] at h
    subst h
    rw [buildSpatialIndex_eq]
    exact hc
  | approxCloudNorms iters kNN =>
    simp only [Op.apply] at h
    obtain ⟨h1, h2, _⟩ := approxCloudNorms_keeps ext iters kNN c c1 h
    rw [h1, h2]
    exact hc

theorem run_keeps_parallel [Zero α] [One α] [Add α] [Sub α] [Div α] [NatCast α]
    (ext : Externals α) (ops : List (Op α)) (c c1 : Cloud α)
    (hc : c.m_cloud.length = c.m_norms.length) (h : run ext ops c = some c1) :
    c1.m_cloud.length = c1.m_norms.length := by
  induction ops generalizing c with
  | nil =>
    simp only [run, Option.some.injEq] at h
    subst h
    exact hc
  | cons op ops ih =>
    simp only [run] at h
    cases hop : op.apply ext c with
    | none => simp [hop] at h
    | some c2 =>
      simp only [hop] at h
      exact ih c2 (apply_keeps_parallel ext op c c2 hc hop) h

end CloudFacts

/-! ## The claims about `Cloud` -/

section CloudClaims

variable {α : Type}

/-- C1, as amended: importing 100 points with `fromPCL` and exporting at once
with `toPCL` into an empty container gives `100 / 25 = 4` entries, the `i`-th
being the `i`-th input point minus the centroid of the first four input
points, and the export leaves the cloud as the import made it. -/
theorem fromPCL_toPCL_hundred [Zero α] [One α] [Add α] [Sub α] [Div α] [NatCast α]
    (points : List (PointXYZ α)) (c : Cloud α) (h : points.length = 100) :
    ((c.fromPCL points).toPCL []).2.length = 4
    ∧ (∀ i p, i < 4 → points[i]? = some p →
        ((c.fromPCL points).toPCL []).2[i]?
          = some (coordinates (recentre (centroid (points.take 4)) p)))
    ∧ ((c.fromPCL points).toPCL []).1 = c.fromPCL points := by
  have hk : points.length / 25 = 4 := by rw [h]
  refine ⟨?_, ?_, ?_⟩
  · rw [toPCL_eq, fromPCL_eq]
    simp [hk, h]
  · intro i p hi hp
    rw [toPCL_eq, fromPCL_eq, hk]
    simp only [List.nil_append, List.map_map, List.getElem?_map]
    rw [List.getElem?_take_of_lt hi, hp]
    rfl
  · rw [toPCL_eq]

/-- C1, witness: the round trip of one hundred equal points. -/
theorem fromPCL_toPCL_hundred_witness :
    hundredEqualPoints.length = 100
    ∧ ((Cloud.empty.fromPCL hundredEqualPoints).toPCL []).2.length = 4
    ∧ (∀ i p, i < 4 → hundredEqualPoints[i]? = some p →
        ((Cloud.empty.fromPCL hundredEqualPoints).toPCL []).2[i]?
          = some (coordinates (recentre (centroid (hundredEqualPoints.take 4)) p)))
    ∧ ((Cloud.empty.fromPCL hundredEqualPoints).toPCL []).1
        = Cloud.empty.fromPCL hundredEqualPoints :=
  ⟨by decide, fromPCL_toPCL_hundred hundredEqualPoints Cloud.empty (by decide)⟩

/-- C1, counterexample: one hundred points go in, four come out. -/
theorem fromPCL_toPCL_loses_points :
    hundredPoints.length = 100
    ∧ ((Cloud.empty.fromPCL hundredPoints).toPCL []).2
        = [⟨-3/2, 0, 0⟩, ⟨-1/2, 0, 0⟩, ⟨1/2, 0, 0⟩, ⟨3/2, 0, 0⟩]
    ∧ ¬ ((Cloud.empty.fromPCL hundredPoints).toPCL []).2.length = 100 := by
  have hlen : hundredPoints.length = 100 := by decide
  have hout : ((Cloud.empty.fromPCL hundredPoints).toPCL []).2
      = [⟨-3/2, 0, 0⟩, ⟨-1/2, 0, 0⟩, ⟨1/2, 0, 0⟩, ⟨3/2, 0, 0⟩] := by
    rw [toPCL_eq, fromPCL_eq, hlen]
    simp [hundredPoints, centroid, recentre, coordinates]
    norm_num
  refine ⟨hlen, hout, ?_⟩
  rw [hout]
  decide

/-- C7: after `fromPCL` on `N` input points, whatever the cloud held before,
the cloud holds `N / 25` points and no spatial index; the `i`-th stored point
is the `i`-th input point minus the centroid of the first `N / 25` input
points; every normal is `(0, 0, 1)`; for `N < 25` the cloud is empty. -/
theorem fromPCL_keeps_every_25th_share [Zero α] [One α] [Add α] [Sub α] [Div α] [NatCast α]
    (points : List (PointXYZ α)) (c : Cloud α) :
    (c.fromPCL points).pointCount = points.length / 25
    ∧ (c.fromPCL points).m_CT = none
    ∧ (c.fromPCL points).m_cloud
        = (points.take (points.length / 25)).map
            (recentre (centroid (points.take (points.length / 25))))
    ∧ (∀ i p, i < points.length / 25 → points[i]? = some p →
        (c.fromPCL points).m_cloud[i]?
          = some (recentre (centroid (points.take (points.length / 25))) p))
    ∧ (c.fromPCL points).m_norms = List.replicate (points.length / 25) ⟨0, 0, 1⟩
    ∧ (points.length < 25 → c.fromPCL points = Cloud.empty) := by
  have hk : points.length / 25 ≤ points.length := Nat.div_le_self _ _
  rw [fromPCL_eq]
  refine ⟨?_, rfl, rfl, ?_, rfl, ?_⟩
  · simp [Cloud.pointCount, List.length_take, Nat.min_eq_left hk]
  · intro i p hi hp
    simp only [List.getElem?_map]
    rw [List.getElem?_take_of_lt hi, hp]
    rfl
  · intro hlt
    have h0 : points.length / 25 = 0 := Nat.div_eq_of_lt hlt
    simp [h0, Cloud.empty]

/-- C8: `toPCL` leaves in the output container its previous contents followed
by one entry per cloud point, the `i`-th with the coordinates of `m_cloud[i]`;
the cloud is unchanged; an empty container ends up holding exactly the cloud's
coordinates in index order. -/
theorem toPCL_appends_in_index_order (c : Cloud α) (cloud : List (PointXYZ α)) :
    (c.toPCL cloud).2 = cloud ++ c.m_cloud.map coordinates
    ∧ (c.toPCL cloud).2.length = cloud.length + c.pointCount
    ∧ (∀ i, i < cloud.length → (c.toPCL cloud).2[i]? = cloud[i]?)
    ∧ (∀ i v, c.m_cloud[i]? = some v →
        (c.toPCL cloud).2[cloud.length + i]? = some ⟨v.x, v.y, v.z⟩)
    ∧ (c.toPCL cloud).1 = c
    ∧ (c.toPCL []).2 = c.m_cloud.map coordinates := by
  rw [toPCL_eq, toPCL_eq]
  refine ⟨rfl, ?_, ?_, ?_, rfl, ?_⟩
  · simp [Cloud.pointCount]
  · intro i hi
    simp [List.getElem?_append_left hi]
  · intro i v hv
    simp only []
    rw [List.getElem?_append_right (Nat.le_add_right _ _)]
    simp [hv, coordinates]
  · simp

/-- C2, the code at the failing input: on a cloud whose index has just been
built, `addPoint` stores the new point at position `pointCount` (the old
count) but inserts it into the index with the id `pointCount + 1`. -/
theorem addPoint_inserts_size_as_id (v n : Vector3f α) (threadSafe : Bool) (c : Cloud α) :
    (c.buildSpatialIndex.addPoint v n threadSafe).m_cloud = c.m_cloud ++ [v]
    ∧ (c.buildSpatialIndex.addPoint v n threadSafe).m_cloud[c.pointCount]? = some v
    ∧ (c.buildSpatialIndex.addPoint v n threadSafe).m_CT
        = some ⟨indexEntries c.m_cloud ++ [⟨v, c.pointCount + 1⟩]⟩
    ∧ (c.buildSpatialIndex.addPoint v n threadSafe).m_CT
        ≠ some ⟨indexEntries (c.buildSpatialIndex.addPoint v n threadSafe).m_cloud⟩ := by
  rw [buildSpatialIndex_eq]
  refine ⟨rfl, ?_, ?_, ?_⟩
  · simp [Cloud.addPoint, Cloud.pointCount]
  · simp [Cloud.addPoint, Cloud.pointCount, CoverTree.insert]
  · simp [Cloud.addPoint, CoverTree.insert, indexEntries, List.enum_append,
      List.enumFrom_singleton]

/-- C5: each of `pointKNN`, `approxNorm` and `approxCloudNorms` fails its
assertion, giving no result, exactly when `m_CT` is null; a constructed, a
cleared and a freshly imported cloud have a null `m_CT`. -/
theorem queries_fail_iff_no_index [Zero α] [One α] [Add α] [Sub α] [Div α] [NatCast α]
    (ext : Externals α) (c : Cloud α) (p : Vector3f α) (k iters kNN : Int)
    (points : List (PointXYZ α)) :
    (c.pointKNN ext p k = none ↔ c.m_CT = none)
    ∧ (c.approxNorm ext p iters kNN = none ↔ c.m_CT = none)
    ∧ (c.approxCloudNorms ext iters kNN = none ↔ c.m_CT = none)
    ∧ (Cloud.empty : Cloud α).m_CT = none
    ∧ c.clear.m_CT = none
    ∧ (c.fromPCL points).m_CT = none
    ∧ c.buildSpatialIndex.m_CT ≠ none := by
  refine ⟨?_, ?_, ?_, rfl, rfl, ?_, ?_⟩
  · unfold Cloud.pointKNN
    cases c.m_CT <;> simp
  · unfold Cloud.approxNorm
    cases c.m_CT <;> simp
  · unfold Cloud.approxCloudNorms
    cases c.m_CT <;> simp
  · rw [fromPCL_eq]
  · rw [buildSpatialIndex_eq]
    simp

/-- C6: every cloud reached from the empty cloud by `clear`, `fromPCL`,
`addPoint`, `buildSpatialIndex` and `approxCloudNorms` has as many normals as
points, and `approxCloudNorms` leaves the points and the number of normals as
they were. -/
theorem arrays_stay_parallel [Zero α] [One α] [Add α] [Sub α] [Div α] [NatCast α]
    (ext : Externals α) (ops : List (Op α)) (c : Cloud α)
    (h : run ext ops Cloud.empty = some c) :
    c.m_cloud.length = c.m_norms.length
    ∧ (∀ (iters kNN : Int) (c1 : Cloud α), c.approxCloudNorms ext iters kNN = some c1 →
        c1.m_cloud = c.m_cloud ∧ c1.m_norms.length = c.m_norms.length
        ∧ c1.m_cloud.length = c1.m_norms.length) := by
  have hc := run_keeps_parallel ext ops Cloud.empty c rfl h
  refine ⟨hc, ?_⟩
  intro iters kNN c1 h1
  obtain ⟨a, b, _⟩ := approxCloudNorms_keeps ext iters kNN c c1 h1
  exact ⟨a, b, by rw [a, b]; exact hc⟩

/-- C6, witness: a run through all five operations. -/
theorem arrays_stay_parallel_witness :
    run sampleExternals sampleOps Cloud.empty
        = some ⟨[⟨1, 1, 1⟩], [⟨0, 0, 1⟩], some ⟨[⟨⟨1, 1, 1⟩, 0⟩]⟩⟩
    ∧ ([⟨1, 1, 1⟩] : List (Vector3f ℚ)).length = ([⟨0, 0, 1⟩] : List (Vector3f ℚ)).length :=
  ⟨by decide,
   (arrays_stay_parallel sampleExternals sampleOps
      ⟨[⟨1, 1, 1⟩], [⟨0, 0, 1⟩], some ⟨[⟨⟨1, 1, 1⟩, 0⟩]⟩⟩ (by decide)).1⟩

/-- C9, the code: the list that `approxNorm` hands to `cloud_normal` is one
default-constructed vector per returned neighbour followed by the neighbours'
vectors, twice as long as the query result, while `approxCloudNorms` hands
over the neighbours' vectors alone. -/
theorem approxNorm_vneighs_doubled (ext : Externals α) (ct : CoverTree α) (p : Vector3f α)
    (kNN : Int) :
    approxNorm_vneighs ext ct p kNN
        = (List.range (ext.kNearestNeighbors ct ⟨p, 0⟩ kNN).length).map ext.uninitialized
          ++ (ext.kNearestNeighbors ct ⟨p, 0⟩ kNN).map CoverTreePoint.getVec
    ∧ (approxNorm_vneighs ext ct p kNN).length
        = 2 * (ext.kNearestNeighbors ct ⟨p, 0⟩ kNN).length
    ∧ approxCloudNorms_vneighs ext ct p kNN
        = (ext.kNearestNeighbors ct ⟨p, 0⟩ kNN).map CoverTreePoint.getVec
    ∧ (ext.kNearestNeighbors ct ⟨p, 0⟩ kNN ≠ [] →
        approxNorm_vneighs ext ct p kNN ≠ approxCloudNorms_vneighs ext ct p kNN) := by
  have h1 : approxNorm_vneighs ext ct p kNN
        = (List.range (ext.kNearestNeighbors ct ⟨p, 0⟩ kNN).length).map ext.uninitialized
          ++ (ext.kNearestNeighbors ct ⟨p, 0⟩ kNN).map CoverTreePoint.getVec := by
    unfold approxNorm_vneighs
    simp only [pushNeighVects_eq]
  have h2 : approxCloudNorms_vneighs ext ct p kNN
        = (ext.kNearestNeighbors ct ⟨p, 0⟩ kNN).map CoverTreePoint.getVec := by
    unfold approxCloudNorms_vneighs
    simp only [pushNeighVects_eq, List.nil_append]
  refine ⟨h1, ?_, h2, ?_⟩
  · rw [h1]
    simp
    omega
  · intro hne heq
    have hl := congrArg List.length heq
    rw [h1, h2] at hl
    simp at hl
    exact hne hl

end CloudClaims

section DialogFacts

theorem readIters_fst (qt : QtText) (str : String) (old : Int) :
    (readIters qt str old).1 = !fieldFails qt str := by
  unfold readIters fieldFails
  by_cases h : qt.validate str = QValidatorState.Acceptable <;> simp [h]

theorem readSizeT_fst (qt : QtText) (str : String) (old : Nat) :
    (readSizeT qt str old).1 = !fieldFails qt str := by
  unfold readSizeT fieldFails
  by_cases h : qt.validate str = QValidatorState.Acceptable <;> simp [h]

theorem readSizeT_snd (qt : QtText) (str : String) (old : Nat)
    (h : fieldFails qt str = false) :
    (readSizeT qt str old).2 = toSizeT (qt.toULongLong str).1 := by
  unfold readSizeT
  unfold fieldFails at h
  by_cases hv : qt.validate str = QValidatorState.Acceptable
  · simp [hv]
  · simp [hv] at h

theorem readLatm_fst (qt : QtText) (str : String) (old natm : Nat) :
    (readLatm qt str old natm).1
      = !(fieldFails qt str || decide (toSizeT (qt.toULongLong str).1 > natm)) := by
  unfold readLatm fieldFails
  by_cases h : qt.validate str = QValidatorState.Acceptable <;>
    by_cases hg : toSizeT (qt.toULongLong str).1 > natm <;> simp [h, hg]

end DialogFacts

/-! ## The claims about `ReconstructDialog::getFields` -/

section DialogClaims

/-- C3: `getFields` returns `-k` for the first offending field `k` in the
order `kSVDIters, kNN, nfreq, natm, latm, maxNewPoints` and `0` when there
is none; it returns `0` exactly when no field is offending; it returns `-5`
whenever the first four fields are fine and `latm` exceeds `natm`; and on
`-k` no output after position `k` is written. -/
theorem getFields_code_is_first_offending (qt : QtText) (d : ReconstructDialog) (o : Fields) :
    (getFields qt d o).code = codeOfFirstOffending (offendingFields qt d) 1
    ∧ ((getFields qt d o).code = 0 ↔ ∀ b ∈ offendingFields qt d, b = false)
    ∧ (fieldFails qt d.nItersLineEdit = false → fieldFails qt d.kNNLineEdit = false →
        fieldFails qt d.nFreqLineEdit = false → fieldFails qt d.nAtmLineEdit = false →
        toSizeT (qt.toULongLong d.lAtmLineEdit).1 > toSizeT (qt.toULongLong d.nAtmLineEdit).1 →
        (getFields qt d o).code = -5)
    ∧ (∀ k : Nat, 1 ≤ k → k ≤ 6 → (getFields qt d o).code = -(k : Int) →
        outputsAfter k (getFields qt d o).out = outputsAfter k o) := by
  unfold getFields
  simp only [readIters_fst, readSizeT_fst, readLatm_fst, offendingFields, Bool.not_not]
  cases h1 : fieldFails qt d.nItersLineEdit
  swap
  · simp [codeOfFirstOffending]
    intro k hk1 hk6 hk
    interval_cases k <;> simp_all [outputsAfter]
  cases h2 : fieldFails qt d.kNNLineEdit
  swap
  · simp [codeOfFirstOffending]
    intro k hk1 hk6 hk
    interval_cases k <;> simp_all [outputsAfter]
  cases h3 : fieldFails qt d.nFreqLineEdit
  swap
  · simp [codeOfFirstOffending]
    intro k hk1 hk6 hk
    interval_cases k <;> simp_all [outputsAfter]
  cases h4 : fieldFails qt d.nAtmLineEdit
  swap
  · simp [codeOfFirstOffending]
    intro k hk1 hk6 hk
    interval_cases k <;> simp_all [outputsAfter]
  rw [readSizeT_snd qt d.nAtmLineEdit o.natm h4]
  cases h5 : (fieldFails qt d.lAtmLineEdit ||
      decide (toSizeT (qt.toULongLong d.lAtmLineEdit).1
        > toSizeT (qt.toULongLong d.nAtmLineEdit).1))
  swap
  · simp [codeOfFirstOffending]
    intro k hk1 hk6 hk
    interval_cases k <;> simp_all [outputsAfter]
  cases h6 : fieldFails qt d.maxNewLineEdit
  swap
  · simp [codeOfFirstOffending]
    refine ⟨?_, ?_⟩
    · simp at h5
      exact h5.2
    · intro k hk1 hk6 hk
      interval_cases k <;> simp_all [outputsAfter]
  simp [codeOfFirstOffending]
  refine ⟨?_, ?_⟩
  · simp at h5
    exact h5.2
  · intro k hk1 hk6 hk
    omega

/-- C10: whenever `getFields` returns `0` the output method is
`OrthogonalPursuit`; code and outputs are the same for every selection of
the combo box; and no call ever writes `MatchingPursuit`. -/
theorem getFields_method_ignores_selection (qt : QtText) (d : ReconstructDialog) (o : Fields)
    (h : (getFields qt d o).code = 0) :
    (getFields qt d o).out.method = SparseApprox.OrthogonalPursuit
    ∧ (∀ index : Nat,
        (getFields qt { d with methodComboBox := index } o).code = 0
        ∧ (getFields qt { d with methodComboBox := index } o).out = (getFields qt d o).out)
    ∧ (∀ (d1 : ReconstructDialog) (o1 : Fields),
        (getFields qt d1 o1).out.method = SparseApprox.OrthogonalPursuit
        ∨ (getFields qt d1 o1).out.method = o1.method) := by
  refine ⟨?_, ?_, ?_⟩
  · simp only [getFields] at h ⊢
    split_ifs at h ⊢ <;> simp_all [readMethod]
  · intro index
    simp only [getFields] at h ⊢
    split_ifs at h ⊢ <;> simp_all [readMethod]
  · intro d1 o1
    simp only [getFields]
    split_ifs <;> simp [readMethod]

/-- C10, witness: the default texts with "Matching Pursuit" selected. -/
theorem getFields_method_ignores_selection_witness :
    defaultDialog.methodComboBox = 1
    ∧ (getFields (dialogQt intMax) defaultDialog staleFields).code = 0
    ∧ (getFields (dialogQt intMax) defaultDialog staleFields).out.method
        = SparseApprox.OrthogonalPursuit :=
  ⟨by decide, by decide,
   (getFields_method_ignores_selection (dialogQt intMax) defaultDialog staleFields
      (by decide)).1⟩

end DialogClaims
end PCReconstruct
